import Mathlib

/-!
Verification development for the SmartFactory IoT Stats service
(`src/main.py`).  The service loads a CSV of sensor readings, answers
`GET /stats` queries that filter by location, sensor and an inclusive
time window, and memoizes responses in an in-process cache keyed by
normalized parameter strings.

The shallow embedding below mirrors the Python source:
 * timestamps are seconds since the Unix epoch (`Int`);
 * numeric sensor values are rationals (`Rat`), standing for the exact
   values of the floats the code manipulates;
 * the CSV file is a `RawTable` of string cells, standing for the parsed
   contents of `sensors.csv`;
 * `pd.to_datetime(..., utc=True)` and `pd.to_numeric` are modelled by
   executable parsers `parse_iso_chars`/`parse_numeric` covering the
   ISO-8601 date/datetime forms and decimal numerals the spec mentions;
 * the response cache is an association list threaded through the
   endpoint as explicit state.
-/

/-- Decimal digit value of a character, `none` when not a digit. -/
def digitVal (c : Char) : Option Nat :=
  if c.isDigit then some (c.toNat - 48) else none

/-- Read exactly two digits from the front of a character list. -/
def take2 : List Char → Option (Nat × List Char)
  | c1 :: c2 :: rest => do
      let d1 ← digitVal c1
      let d2 ← digitVal c2
      pure (d1 * 10 + d2, rest)
  | _ => none

/-- Read exactly four digits from the front of a character list. -/
def take4 : List Char → Option (Nat × List Char)
  | c1 :: c2 :: c3 :: c4 :: rest => do
      let d1 ← digitVal c1
      let d2 ← digitVal c2
      let d3 ← digitVal c3
      let d4 ← digitVal c4
      pure (((d1 * 10 + d2) * 10 + d3) * 10 + d4, rest)
  | _ => none

/-- Expect a fixed character at the front of the list. -/
def expectChar (c : Char) : List Char → Option (List Char)
  | c' :: rest => if c' = c then some rest else none
  | [] => none

/-- Gregorian leap-year test. -/
def isLeap (y : Nat) : Bool :=
  (y % 4 == 0 && y % 100 != 0) || y % 400 == 0

/-- Number of days in a month of a given year. -/
def daysInMonth (y m : Nat) : Nat :=
  if m = 2 then (if isLeap y then 29 else 28)
  else if m = 4 ∨ m = 6 ∨ m = 9 ∨ m = 11 then 30
  else 31

/-- Days from the civil era origin to year `y`, month `m`, day `d`
(valid Gregorian dates, `y ≥ 1`); the standard civil-calendar count. -/
def daysFromCivil (y m d : Nat) : Nat :=
  let y' := if m ≤ 2 then y - 1 else y
  let era := y' / 400
  let yoe := y' - era * 400
  let mp := (m + 9) % 12
  let doy := (153 * mp + 2) / 5 + (d - 1)
  let doe := yoe * 365 + yoe / 4 - yoe / 100 + doy
  era * 146097 + doe

/-- Days since 1970-01-01 of a civil date. -/
def daysSinceEpoch (y m d : Nat) : Int :=
  (daysFromCivil y m d : Int) - 719468

/-- Timezone-offset magnitude in seconds: `HH`, `HHMM` or `HH:MM`. -/
def parseTZoff (cs : List Char) : Option Nat := do
  let (h, cs) ← take2 cs
  match cs with
  | [] => do
      guard (h ≤ 23)
      pure (h * 3600)
  | ':' :: cs2 => do
      let (m, cs3) ← take2 cs2
      guard (cs3.isEmpty ∧ h ≤ 23 ∧ m ≤ 59)
      pure (h * 3600 + m * 60)
  | _ => do
      let (m, cs3) ← take2 cs
      guard (cs3.isEmpty ∧ h ≤ 23 ∧ m ≤ 59)
      pure (h * 3600 + m * 60)

/-- Trailing timezone designator: empty (naive, taken as UTC because the
code passes `utc=True`), `Z`/`z`, or a signed offset. Returns the offset
in seconds to subtract from local time to reach UTC. -/
def parseTZ : List Char → Option Int
  | [] => some 0
  | ['Z'] => some 0
  | ['z'] => some 0
  | '+' :: rest => (parseTZoff rest).map (fun n => (n : Int))
  | '-' :: rest => (parseTZoff rest).map (fun n => -(n : Int))
  | _ => none

/-- Optional time-of-day with optional fractional seconds (truncated)
and timezone, after the date part: models the time portion accepted by
`pd.to_datetime`. Returns seconds into the day adjusted to UTC. -/
def parseTimePart (cs : List Char) : Option Int := do
  let (h, cs) ← take2 cs
  let cs ← expectChar ':' cs
  let (mi, cs) ← take2 cs
  let (sec, cs) ← match cs with
    | ':' :: cs2 => do
        let (s2, cs3) ← take2 cs2
        pure (s2, cs3)
    | _ => pure (0, cs)
  let cs := match cs with
    | '.' :: cs2 =>
        if (cs2.takeWhile (·.isDigit)).isEmpty then '.' :: cs2
        else cs2.dropWhile (·.isDigit)
    | _ => cs
  guard (h ≤ 23 ∧ mi ≤ 59 ∧ sec ≤ 59)
  let off ← parseTZ cs
  pure ((h * 3600 + mi * 60 + sec : Nat) - off)

/-- ISO-8601 date or datetime to seconds since the Unix epoch (UTC).
Models `pd.to_datetime(s, utc=True)` on the string forms the spec names:
`YYYY-MM-DD` (midnight UTC) and `YYYY-MM-DD[T| ]HH:MM[:SS][.fff][tz]`.
Returns `none` when the string does not parse (pandas raises, which the
caller turns into `None`/row exclusion). Years are kept inside pandas'
`Timestamp` bounds. -/
def parse_iso_chars (cs : List Char) : Option Int := do
  let (y, cs) ← take4 cs
  let cs ← expectChar '-' cs
  let (mo, cs) ← take2 cs
  let cs ← expectChar '-' cs
  let (d, cs) ← take2 cs
  guard (1677 ≤ y ∧ y ≤ 2262 ∧ 1 ≤ mo ∧ mo ≤ 12 ∧ 1 ≤ d ∧ d ≤ daysInMonth y mo)
  let daySecs : Int := daysSinceEpoch y mo d * 86400
  match cs with
  | [] => pure daySecs
  | c :: rest => do
      guard (c = 'T' ∨ c = 't' ∨ c = ' ')
      let t ← parseTimePart rest
      pure (daySecs + t)

/-- Leading and trailing whitespace removed, as Python's `str.strip()`. -/
def trimChars (cs : List Char) : List Char :=
  ((cs.dropWhile Char.isWhitespace).reverse.dropWhile Char.isWhitespace).reverse

/-- Function `_parse_iso` from `src/main.py`: empty/whitespace or unparseable
strings give `none` ("no constraint"); otherwise the UTC instant. The
code strips nothing itself, but `pd.to_datetime` tolerates surrounding
whitespace, modelled by trimming first. -/
def parse_iso (s : String) : Option Int :=
  parse_iso_chars (trimChars s.toList)

/-- Digits folded into a natural number. -/
def natOfDigits (cs : List Char) : Nat :=
  cs.foldl (fun a c => a * 10 + (c.toNat - 48)) 0

/-- Decimal numeral to an exact rational: models `pd.to_numeric(s,
errors="coerce")` on a string cell — optional sign, digits, optional
fractional part; `none` (NaN, row excluded) otherwise. -/
def parse_numeric (s : String) : Option Rat := do
  let cs := trimChars s.toList
  let (sgn, cs) := match cs with
    | '-' :: r => ((-1 : Int), r)
    | '+' :: r => ((1 : Int), r)
    | _ => ((1 : Int), cs)
  let intPart := cs.takeWhile (·.isDigit)
  let cs := cs.dropWhile (·.isDigit)
  let (fracPart, cs) : List Char × List Char := match cs with
    | '.' :: r => (r.takeWhile (fun c => c.isDigit), r.dropWhile (fun c => c.isDigit))
    | _ => ([], cs)
  guard (cs.isEmpty ∧ 0 < intPart.length + fracPart.length)
  pure ((sgn : Rat) * ((natOfDigits intPart : Rat)
      + (natOfDigits fracPart : Rat) / (10 : Rat) ^ fracPart.length))

/-- Python's `str.strip().lower()` on a parameter or cell string. -/
def normString (s : String) : String :=
  ((trimChars s.toList).map Char.toLower).asString

/-- One row of the normalized table built by `load_data`: UTC timestamp,
original and normalized labels, numeric value. -/
structure Reading where
  timestamp : Int
  location : String
  sensor : String
  location_norm : String
  sensor_norm : String
  value : Rat
deriving DecidableEq, Repr

/-- The parsed contents of `sensors.csv`: a header of column names and
rows of string cells aligned with the header. -/
structure RawTable where
  columns : List String
  rows : List (List String)
deriving DecidableEq, Repr

/-- The cell of `row` under column `c`, when the column exists and the
row is long enough. -/
def getCell (cols : List String) (row : List String) (c : String) : Option String :=
  (cols.findIdx? (fun c' => c' = c)).bind (fun i => row[i]?)

/-- Row-wise normalization inside `load_data`: parse the timestamp to a
UTC instant and the value to a number, dropping the row (`none`) when
either fails; keep original and trimmed/lowercased labels. `astype(str)`
renders a missing label cell as the string `nan`. -/
def rowToReading (cols : List String) (row : List String) : Option Reading := do
  let tsStr ← getCell cols row "timestamp"
  let ts ← parse_iso tsStr
  let locStr := (getCell cols row "location").getD "nan"
  let senStr := (getCell cols row "sensor").getD "nan"
  let valStr ← getCell cols row "value"
  let v ← parse_numeric valStr
  pure { timestamp := ts, location := locStr, sensor := senStr,
         location_norm := normString locStr, sensor_norm := normString senStr,
         value := v }

/-- The required columns absent from the source table's header. -/
def missingColumns (t : RawTable) : List String :=
  ["timestamp", "location", "sensor", "value"].filter
    (fun c => !(t.columns.contains c))

/-- Function `load_data` from `src/main.py` applied to the parsed CSV contents:
fail when a required column is missing, otherwise keep exactly the rows
whose timestamp and value parse. -/
def load_data (t : RawTable) : Except String (List Reading) :=
  if (missingColumns t).isEmpty then
    Except.ok (t.rows.filterMap (rowToReading t.columns))
  else
    Except.error ("CSV missing columns: " ++
      String.intercalate ", " (missingColumns t))

/-- The four optional query parameters of `GET /stats`. -/
structure Request where
  location : Option String
  sensor : Option String
  start_date : Option String
  end_date : Option String
deriving DecidableEq, Repr

/-- The canonical cache-key tuple. -/
structure CacheKey where
  location : Option String
  sensor : Option String
  start_date : Option String
  end_date : Option String
deriving DecidableEq, Repr

/-- Function `_cache_key` from `src/main.py`: each string parameter is trimmed
and lowercased; an absent parameter stays `none`. -/
def cache_key (r : Request) : CacheKey :=
  { location := r.location.map normString
    sensor := r.sensor.map normString
    start_date := r.start_date.map normString
    end_date := r.end_date.map normString }

/-- The parsed start bound of a request (`_parse_iso(start_date)`);
Python's `if not date_str` makes `None` and `""` both parse to `None`,
which `parse_iso` already gives on `""`. -/
def startBound (r : Request) : Option Int :=
  r.start_date.bind parse_iso

/-- The parsed end bound of a request. -/
def endBound (r : Request) : Option Int :=
  r.end_date.bind parse_iso

/-- The sequential filtering of the endpoint body (`flt = df; if
location: ...; if sensor: ...; bounds`): a reading survives each present
truthy criterion in turn. -/
def filtered (table : List Reading) (r : Request) : List Reading :=
  let flt := table
  let flt := match r.location with
    | some s => if s.isEmpty then flt
        else flt.filter (fun rd => rd.location_norm == normString s)
    | none => flt
  let flt := match r.sensor with
    | some s => if s.isEmpty then flt
        else flt.filter (fun rd => rd.sensor_norm == normString s)
    | none => flt
  let flt := match startBound r with
    | some ts => flt.filter (fun rd => decide (ts ≤ rd.timestamp))
    | none => flt
  let flt := match endBound r with
    | some ts => flt.filter (fun rd => decide (rd.timestamp ≤ ts))
    | none => flt
  flt

/-- The JSON `stats` object: `count`, and `avg`/`min`/`max` which are
`null` exactly when nothing matches. -/
structure StatsObj where
  count : Nat
  avg : Option Rat
  min : Option Rat
  max : Option Rat
deriving DecidableEq, Repr

/-- Sum of a list of values. -/
def listSum (l : List Rat) : Rat := l.foldl (· + ·) 0

/-- Minimum of a list of values, `none` on the empty list. -/
def listMin : List Rat → Option Rat
  | [] => none
  | x :: xs => some (xs.foldl min x)

/-- Maximum of a list of values, `none` on the empty list. -/
def listMax : List Rat → Option Rat
  | [] => none
  | x :: xs => some (xs.foldl max x)

/-- The aggregate computation of the endpoint: empty match gives count 0
and null aggregates, otherwise count, arithmetic mean and extrema of the
matching values. -/
def compute_stats (table : List Reading) (r : Request) : StatsObj :=
  let flt := filtered table r
  if flt.isEmpty then
    { count := 0, avg := none, min := none, max := none }
  else
    let vals := flt.map (·.value)
    { count := vals.length
      avg := some (listSum vals / (vals.length : Rat))
      min := listMin vals
      max := listMax vals }

/-- The in-process response cache: key to stored stats object. -/
abbrev Cache := List (CacheKey × StatsObj)

/-- Lookup in the cache map. -/
def cacheLookup : Cache → CacheKey → Option StatsObj
  | [], _ => none
  | (k', v) :: rest, k => if k' = k then some v else cacheLookup rest k

/-- An HTTP response of the endpoint: the stats payload and the
`X-Cache` header value. -/
structure StatsResponse where
  payload : StatsObj
  xcache : String
deriving DecidableEq, Repr

/-- The `stats` endpoint as explicit state passing over the cache: on a
hit return the stored payload with `X-Cache: HIT` and leave the cache
unchanged; on a miss compute, store under the key, return with
`X-Cache: MISS`. -/
def stats (table : List Reading) (cache : Cache) (r : Request) :
    StatsResponse × Cache :=
  let key := cache_key r
  match cacheLookup cache key with
  | some payload => ({ payload := payload, xcache := "HIT" }, cache)
  | none =>
      let payload := compute_stats table r
      ({ payload := payload, xcache := "MISS" }, (key, payload) :: cache)

/-- Conjunctive location criterion as a predicate on one reading. -/
def locMatch (r : Request) (rd : Reading) : Bool :=
  match r.location with
  | some s => if s.isEmpty then true else rd.location_norm == normString s
  | none => true

/-- Conjunctive sensor criterion as a predicate on one reading. -/
def senMatch (r : Request) (rd : Reading) : Bool :=
  match r.sensor with
  | some s => if s.isEmpty then true else rd.sensor_norm == normString s
  | none => true

/-- Start-bound criterion as a predicate on one reading. -/
def startMatch (r : Request) (rd : Reading) : Bool :=
  match startBound r with
  | some ts => decide (ts ≤ rd.timestamp)
  | none => true

/-- End-bound criterion as a predicate on one reading. -/
def endMatch (r : Request) (rd : Reading) : Bool :=
  match endBound r with
  | some ts => decide (rd.timestamp ≤ ts)
  | none => true

/-- A reading matches a request when every present criterion holds. -/
def matchesAll (r : Request) (rd : Reading) : Bool :=
  locMatch r rd && senMatch r rd && startMatch r rd && endMatch r rd

/-- Conditionally skipping a filter is filtering with a disjunction. -/
theorem ite_skip_filter (c : Bool) (l : List Reading) (p : Reading → Bool) :
    (if c = true then l else l.filter p) = l.filter (fun a => c || p a) := by
  cases c <;> simp

/-- Sequential filtering equals one pass with the conjunction of the
present criteria. -/
theorem filtered_eq_filter_matchesAll (table : List Reading) (r : Request) :
    filtered table r = table.filter (matchesAll r) := by
  unfold filtered matchesAll locMatch senMatch startMatch endMatch
  cases hl : r.location <;> cases hs : r.sensor <;>
    cases hst : startBound r <;> cases hen : endBound r
  all_goals try simp only [ite_skip_filter]
  all_goals try simp only [List.filter_filter]
  all_goals try rfl
  all_goals try simp
  all_goals refine List.filter_congr (fun a _ => ?_)
  all_goals simp [Bool.and_comm, Bool.and_left_comm, Bool.and_assoc]

/-- A reading as `load_data` would build it from already-parsed fields. -/
def mkReading (ts : Int) (loc sen : String) (v : Rat) : Reading :=
  { timestamp := ts, location := loc, sensor := sen,
    location_norm := normString loc, sensor_norm := normString sen,
    value := v }

/-- Three temperature readings with values 10, 20, 30 inside January
2024 (timestamps 2024-01-01, 2024-01-10, 2024-01-19, all UTC). -/
def exTable : List Reading :=
  [mkReading 1704067200 "Plant" "temp" 10,
   mkReading 1704844800 "Plant" "temp" 20,
   mkReading 1705622400 "Plant" "temp" 30]

/-- The query of the spec's aggregate example: sensor `temp`, window
covering all of January 2024. -/
def exReq : Request :=
  { location := none, sensor := some "temp",
    start_date := some "2024-01-01", end_date := some "2024-02-01" }

/-- A table whose first reading has a whitespace-only location (so its
normalized location is the empty string) and whose second has location
`A`. -/
def wsTable : List Reading :=
  [mkReading 1704067200 "  " "temp" 5,
   mkReading 1704067200 "A" "temp" 7]

/-- The values of the readings matching a request, in table order. -/
def matchingValues (table : List Reading) (r : Request) : List Rat :=
  (table.filter (matchesAll r)).map (fun rd => rd.value)

/-- C1 counterexample: `2024-01-01T00:00:00Z` and
`2024-01-01T00:00:00+00:00` parse to the same instant, yet their cache
keys differ — `_cache_key` only trims and lowercases, it never parses
dates, so alternate ISO-8601 spellings of one instant get distinct
keys. -/
theorem c1_iso_spellings_counterexample :
    parse_iso "2024-01-01T00:00:00Z" = some 1704067200 ∧
    parse_iso "2024-01-01T00:00:00+00:00" = some 1704067200 ∧
    cache_key { location := none, sensor := none,
                start_date := some "2024-01-01T00:00:00Z", end_date := none } ≠
      cache_key { location := none, sensor := none,
                  start_date := some "2024-01-01T00:00:00+00:00", end_date := none } := by
  refine ⟨by decide, by decide, by decide⟩

/-- C1 amended: two requests get identical cache keys exactly when each
parameter agrees after trimming and lowercasing; casing and surrounding
whitespace are normalized away, but nothing more (in particular not
alternate ISO-8601 spellings of the same instant). -/
theorem c1_cache_key_normalization (r1 r2 : Request) :
    cache_key r1 = cache_key r2 ↔
      (r1.location.map normString = r2.location.map normString ∧
       r1.sensor.map normString = r2.sensor.map normString ∧
       r1.start_date.map normString = r2.start_date.map normString ∧
       r1.end_date.map normString = r2.end_date.map normString) := by
  simp [cache_key, CacheKey.mk.injEq]

/-- C5 counterexample: a date-only `end_date` of `2024-01-31` parses to
midnight (the START of that UTC day), so a reading at noon on
2024-01-31 UTC is excluded from the aggregate, contradicting the
end-of-day reading of the claim. -/
theorem c5_date_only_end_counterexample :
    parse_iso "2024-01-31" = some 1706659200 ∧
    parse_iso "2024-01-31T00:00:00Z" = some 1706659200 ∧
    parse_iso "2024-01-31T12:00:00Z" = some 1706702400 ∧
    compute_stats [mkReading 1706702400 "Plant" "temp" 5]
        { location := none, sensor := none,
          start_date := none, end_date := some "2024-01-31" } =
      { count := 0, avg := none, min := none, max := none } := by
  refine ⟨by decide, by decide, by decide, by decide⟩

/-- C9 counterexample: the empty string and a whitespace-only string are
equal after trimming and case-folding and get the same cache key, yet
their stats differ on `wsTable`: Python's `if location:` treats the
empty string as absent (both readings match, count 2) but the
whitespace-only string as present, filtering with the empty normalized
string (only the whitespace-located reading matches, count 1). -/
theorem c9_empty_vs_whitespace_counterexample :
    normString "" = normString "  " ∧
    cache_key { location := some "", sensor := none,
                start_date := none, end_date := none } =
      cache_key { location := some "  ", sensor := none,
                  start_date := none, end_date := none } ∧
    (compute_stats wsTable { location := some "", sensor := none,
                             start_date := none, end_date := none }).count = 2 ∧
    (compute_stats wsTable { location := some "  ", sensor := none,
                             start_date := none, end_date := none }).count = 1 ∧
    compute_stats wsTable { location := some "", sensor := none,
                            start_date := none, end_date := none } ≠
      compute_stats wsTable { location := some "  ", sensor := none,
                              start_date := none, end_date := none } := by
  refine ⟨by decide, by decide, by decide, by decide, fun h => ?_⟩
  have hc := congrArg StatsObj.count h
  revert hc
  decide

/-- C9 amended: for every pair of NON-EMPTY location (or sensor)
parameter strings that are equal after trimming and case-folding,
querying with either yields the same cache key and identical stats; the
restriction to non-empty strings is forced because an empty parameter is
treated as absent by the filter while sharing the whitespace-only
parameter's cache key. -/
theorem c9_trim_casefold_equivalent (table : List Reading) (r : Request)
    (s1 s2 : String) (h1 : s1 ≠ "") (h2 : s2 ≠ "")
    (hnorm : normString s1 = normString s2) :
    (cache_key { r with location := some s1 } =
       cache_key { r with location := some s2 } ∧
     compute_stats table { r with location := some s1 } =
       compute_stats table { r with location := some s2 }) ∧
    (cache_key { r with sensor := some s1 } =
       cache_key { r with sensor := some s2 } ∧
     compute_stats table { r with sensor := some s1 } =
       compute_stats table { r with sensor := some s2 }) := by
  have he1 : s1.isEmpty = false := by
    cases hse : s1.isEmpty
    · rfl
    · exact absurd ((String.isEmpty_iff s1).mp hse) h1
  have he2 : s2.isEmpty = false := by
    cases hse : s2.isEmpty
    · rfl
    · exact absurd ((String.isEmpty_iff s2).mp hse) h2
  refine ⟨⟨?_, ?_⟩, ⟨?_, ?_⟩⟩
  · simp [cache_key, hnorm]
  · simp [compute_stats, filtered, startBound, endBound, he1, he2, hnorm]
  · simp [cache_key, hnorm]
  · simp [compute_stats, filtered, startBound, endBound, he1, he2, hnorm]

/-- C9 amended witness at the spec's own example pair. -/
theorem c9_trim_casefold_equivalent_witness :
    cache_key { location := some "Building A", sensor := none,
                start_date := none, end_date := none } =
      cache_key { location := some "building a  ", sensor := none,
                  start_date := none, end_date := none } ∧
    compute_stats wsTable { location := some "Building A", sensor := none,
                            start_date := none, end_date := none } =
      compute_stats wsTable { location := some "building a  ", sensor := none,
                              start_date := none, end_date := none } :=
  (c9_trim_casefold_equivalent wsTable
    { location := none, sensor := none, start_date := none, end_date := none }
    "Building A" "building a  " (by decide) (by decide) (by decide)).1

/-- C10 counterexample: the claim's "absent marker used when the
parameter is missing or empty" is not one marker — a missing parameter
keys as `none` but an EMPTY parameter keys as `some ""`, identical to
the whitespace-only key, so the whitespace-only key is not distinct
from the empty-parameter key. -/
theorem c10_empty_marker_counterexample :
    cache_key { location := some "  ", sensor := none,
                start_date := none, end_date := none } ≠
      cache_key { location := none, sensor := none,
                  start_date := none, end_date := none } ∧
    cache_key { location := some "  ", sensor := none,
                start_date := none, end_date := none } =
      cache_key { location := some "", sensor := none,
                  start_date := none, end_date := none } := by
  refine ⟨by decide, by decide⟩

/-- C10 amended: a whitespace-only location is not treated as absent by
the filter — it filters with the empty normalized string and its cache
key records `some ""`, distinct from the `none` marker of a missing
parameter; however a present-but-empty parameter shares that `some ""`
key while the filter treats it as absent. -/
theorem c10_whitespace_param (table : List Reading) (s : String)
    (hne : s ≠ "") (hws : normString s = "") :
    cache_key { location := some s, sensor := none,
                start_date := none, end_date := none } =
      { location := some "", sensor := none,
        start_date := none, end_date := none } ∧
    cache_key { location := some s, sensor := none,
                start_date := none, end_date := none } ≠
      cache_key { location := none, sensor := none,
                  start_date := none, end_date := none } ∧
    cache_key { location := some s, sensor := none,
                start_date := none, end_date := none } =
      cache_key { location := some "", sensor := none,
                  start_date := none, end_date := none } ∧
    filtered table { location := some s, sensor := none,
                     start_date := none, end_date := none } =
      table.filter (fun rd => rd.location_norm == "") ∧
    filtered table { location := some "", sensor := none,
                     start_date := none, end_date := none } = table := by
  have he : s.isEmpty = false := by
    cases hse : s.isEmpty
    · rfl
    · exact absurd ((String.isEmpty_iff s).mp hse) hne
  have h0 : normString "" = "" := by decide
  have h0e : "".isEmpty = true := by decide
  refine ⟨by simp [cache_key, hws, h0], by simp [cache_key], by simp [cache_key, hws, h0],
    ?_, by simp [filtered, startBound, endBound, h0e]⟩
  simp [filtered, startBound, endBound, he, hws]

/-- C10 amended witness at the whitespace-only parameter. -/
theorem c10_whitespace_param_witness :
    filtered wsTable { location := some "  ", sensor := none,
                       start_date := none, end_date := none } =
      wsTable.filter (fun rd => rd.location_norm == "") :=
  (c10_whitespace_param wsTable "  " (by decide) (by decide)).2.2.2.1

/-- The running minimum of a fold is the seed or one of the elements,
and is a lower bound of both. -/
theorem foldl_min_spec (xs : List Rat) (x : Rat) :
    (xs.foldl min x = x ∨ xs.foldl min x ∈ xs) ∧
    xs.foldl min x ≤ x ∧ ∀ v ∈ xs, xs.foldl min x ≤ v := by
  induction xs generalizing x with
  | nil => simp
  | cons a l ih =>
    have h := ih (min x a)
    refine ⟨?_, ?_, ?_⟩
    · rcases h.1 with h1 | h1
      · rcases min_choice x a with hc | hc
        · exact Or.inl (by rw [List.foldl_cons, h1, hc])
        · exact Or.inr (by rw [List.foldl_cons, h1, hc]; exact List.mem_cons_self a l)
      · exact Or.inr (List.mem_cons_of_mem a h1)
    · exact le_trans h.2.1 (min_le_left x a)
    · intro v hv
      rcases List.mem_cons.mp hv with rfl | hv
      · exact le_trans h.2.1 (min_le_right x v)
      · exact h.2.2 v hv

/-- The running maximum of a fold is the seed or one of the elements,
and is an upper bound of both. -/
theorem foldl_max_spec (xs : List Rat) (x : Rat) :
    (xs.foldl max x = x ∨ xs.foldl max x ∈ xs) ∧
    x ≤ xs.foldl max x ∧ ∀ v ∈ xs, v ≤ xs.foldl max x := by
  induction xs generalizing x with
  | nil => simp
  | cons a l ih =>
    have h := ih (max x a)
    refine ⟨?_, ?_, ?_⟩
    · rcases h.1 with h1 | h1
      · rcases max_choice x a with hc | hc
        · exact Or.inl (by rw [List.foldl_cons, h1, hc])
        · exact Or.inr (by rw [List.foldl_cons, h1, hc]; exact List.mem_cons_self a l)
      · exact Or.inr (List.mem_cons_of_mem a h1)
    · exact le_trans (le_max_left x a) h.2.1
    · intro v hv
      rcases List.mem_cons.mp hv with rfl | hv
      · exact le_trans (le_max_right x v) h.2.1
      · exact h.2.2 v hv

/-- The `listMin` of a nonempty list is a member and a lower bound. -/
theorem listMin_spec (xs : List Rat) (mn : Rat) (h : listMin xs = some mn) :
    mn ∈ xs ∧ ∀ v ∈ xs, mn ≤ v := by
  cases xs with
  | nil => simp [listMin] at h
  | cons a l =>
    simp only [listMin, Option.some.injEq] at h
    subst h
    have hs := foldl_min_spec l a
    constructor
    · rcases hs.1 with h1 | h1
      · rw [h1]; exact List.mem_cons_self a l
      · exact List.mem_cons_of_mem a h1
    · intro v hv
      rcases List.mem_cons.mp hv with rfl | hv
      · exact hs.2.1
      · exact hs.2.2 v hv

/-- The `listMax` of a nonempty list is a member and an upper bound. -/
theorem listMax_spec (xs : List Rat) (mx : Rat) (h : listMax xs = some mx) :
    mx ∈ xs ∧ ∀ v ∈ xs, v ≤ mx := by
  cases xs with
  | nil => simp [listMax] at h
  | cons a l =>
    simp only [listMax, Option.some.injEq] at h
    subst h
    have hs := foldl_max_spec l a
    constructor
    · rcases hs.1 with h1 | h1
      · rw [h1]; exact List.mem_cons_self a l
      · exact List.mem_cons_of_mem a h1
    · intro v hv
      rcases List.mem_cons.mp hv with rfl | hv
      · exact hs.2.1
      · exact hs.2.2 v hv

/-- C2: the aggregate is computed over exactly the readings satisfying
every present criterion (conjunctive filtering, trimmed case-folded
equality, inclusive window): `count` is the number of matches; zero
matches give null `avg`/`min`/`max`; otherwise `avg` is the arithmetic
mean and `min`/`max` are the extrema of the matching values; on the
spec's 10/20/30 example the result is count 3, avg 20, min 10, max
30. -/
theorem c2_aggregate_correct (table : List Reading) (r : Request) :
    (compute_stats table r).count = (matchingValues table r).length ∧
    ((compute_stats table r).count = 0 →
      (compute_stats table r).avg = none ∧
      (compute_stats table r).min = none ∧
      (compute_stats table r).max = none) ∧
    ((compute_stats table r).count ≠ 0 →
      (compute_stats table r).avg =
        some (listSum (matchingValues table r) /
          ((matchingValues table r).length : Rat)) ∧
      (∃ mn, (compute_stats table r).min = some mn ∧
        mn ∈ matchingValues table r ∧ ∀ v ∈ matchingValues table r, mn ≤ v) ∧
      (∃ mx, (compute_stats table r).max = some mx ∧
        mx ∈ matchingValues table r ∧ ∀ v ∈ matchingValues table r, v ≤ mx)) ∧
    compute_stats exTable exReq =
      { count := 3, avg := some 20, min := some 10, max := some 30 } := by
  have hmv : matchingValues table r = (filtered table r).map (fun rd => rd.value) := by
    rw [matchingValues, filtered_eq_filter_matchesAll]
  cases hE : (filtered table r).isEmpty with
  | true =>
    have hnil : filtered table r = [] := List.isEmpty_iff.mp hE
    refine ⟨?_, fun _ => ?_, fun hne => ?_, ?_⟩
    · simp [compute_stats, hE, hmv, hnil]
    · simp [compute_stats, hE]
    · exact absurd (by simp [compute_stats, hE]) hne
    · have hl : exReq.location = none := rfl
      have hsen : exReq.sensor = some "temp" := rfl
      have hs : startBound exReq = some 1704067200 := by decide
      have he : endBound exReq = some 1706745600 := by decide
      have hn : normString "temp" = "temp" := by decide
      simp [compute_stats, filtered, hl, hsen, hs, he, hn, exTable, mkReading,
        listSum, listMin, listMax, normString, trimChars]
      norm_num
  | false =>
    have hmvlen : (matchingValues table r).length = (filtered table r).length := by
      rw [hmv, List.length_map]
    have hcount : (compute_stats table r).count = (matchingValues table r).length := by
      simp [compute_stats, hE, hmvlen]
    refine ⟨hcount, fun h0 => ?_, fun _ => ⟨?_, ?_, ?_⟩, ?_⟩
    · rw [hcount, hmvlen] at h0
      exact absurd (List.isEmpty_iff.mpr (List.length_eq_zero.mp h0)) (by rw [hE]; simp)
    · simp [compute_stats, hE, hmv, hmvlen]
    · have hmin : (compute_stats table r).min =
          listMin (matchingValues table r) := by
        simp [compute_stats, hE, hmv]
      cases hM : listMin (matchingValues table r) with
      | none =>
        rw [hmv] at hM
        cases hF : filtered table r with
        | nil => rw [hF] at hE; simp at hE
        | cons a l => rw [hF] at hM; simp [listMin] at hM
      | some mn =>
        have := listMin_spec _ _ hM
        exact ⟨mn, by rw [hmin, hM], this.1, this.2⟩
    · have hmax : (compute_stats table r).max =
          listMax (matchingValues table r) := by
        simp [compute_stats, hE, hmv]
      cases hM : listMax (matchingValues table r) with
      | none =>
        rw [hmv] at hM
        cases hF : filtered table r with
        | nil => rw [hF] at hE; simp at hE
        | cons a l => rw [hF] at hM; simp [listMax] at hM
      | some mx =>
        have := listMax_spec _ _ hM
        exact ⟨mx, by rw [hmax, hM], this.1, this.2⟩
    · have hl : exReq.location = none := rfl
      have hsen : exReq.sensor = some "temp" := rfl
      have hs : startBound exReq = some 1704067200 := by decide
      have he : endBound exReq = some 1706745600 := by decide
      have hn : normString "temp" = "temp" := by decide
      simp [compute_stats, filtered, hl, hsen, hs, he, hn, exTable, mkReading,
        listSum, listMin, listMax, normString, trimChars]
      norm_num

/-- C2 witness: the mean on the concrete example, obtained from the
theorem with the nonzero-count hypothesis discharged by computation. -/
theorem c2_aggregate_correct_witness :
    (compute_stats exTable exReq).avg =
      some (listSum (matchingValues exTable exReq) /
        ((matchingValues exTable exReq).length : Rat)) :=
  ((c2_aggregate_correct exTable exReq).2.2.1 (by decide)).1

/-- The aggregate-example query with different casing and whitespace on
the sensor parameter: normalizes to the same cache key as `exReq`. -/
def exReqCased : Request :=
  { location := none, sensor := some " TEMP ",
    start_date := some "2024-01-01", end_date := some "2024-02-01" }

/-- C3: issuing two requests in sequence whose parameters normalize to
the same cache key, starting from a cache without that key: the first
response is a MISS carrying the computed stats and storing them under
the key; the second is a HIT whose payload is exactly the stored first
payload (served from the cache, leaving it unchanged — no
recomputation). -/
theorem c3_miss_then_hit (table : List Reading) (cache : Cache)
    (r1 r2 : Request) (hkey : cache_key r1 = cache_key r2)
    (hmiss : cacheLookup cache (cache_key r1) = none) :
    (stats table cache r1).1.xcache = "MISS" ∧
    (stats table cache r1).1.payload = compute_stats table r1 ∧
    (stats table (stats table cache r1).2 r2).1.xcache = "HIT" ∧
    (stats table (stats table cache r1).2 r2).1.payload =
      (stats table cache r1).1.payload ∧
    cacheLookup (stats table cache r1).2 (cache_key r2) =
      some (compute_stats table r1) ∧
    (stats table (stats table cache r1).2 r2).2 = (stats table cache r1).2 := by
  rw [hkey] at hmiss
  simp [stats, cacheLookup, hkey, hmiss]

/-- C3 witness: the example query issued twice (second time with
different sensor casing/whitespace) against the empty cache. -/
theorem c3_miss_then_hit_witness :
    (stats exTable [] exReq).1.xcache = "MISS" ∧
    (stats exTable [] exReq).1.payload = compute_stats exTable exReq ∧
    (stats exTable (stats exTable [] exReq).2 exReqCased).1.xcache = "HIT" ∧
    (stats exTable (stats exTable [] exReq).2 exReqCased).1.payload =
      (stats exTable [] exReq).1.payload ∧
    cacheLookup (stats exTable [] exReq).2 (cache_key exReqCased) =
      some (compute_stats exTable exReq) ∧
    (stats exTable (stats exTable [] exReq).2 exReqCased).2 =
      (stats exTable [] exReq).2 :=
  c3_miss_then_hit exTable [] exReq exReqCased (by decide) rfl

/-- C4: the time window is inclusive on both ends — a reading whose
timestamp equals the parsed start bound (or the parsed end bound),
satisfying the remaining criteria, is kept by the filter and hence
contributes to the aggregate. -/
theorem c4_window_inclusive (table : List Reading) (r : Request)
    (rd : Reading) (hmem : rd ∈ table)
    (hloc : locMatch r rd = true) (hsen : senMatch r rd = true)
    (hb : (startBound r = some rd.timestamp ∧ endMatch r rd = true) ∨
          (endBound r = some rd.timestamp ∧ startMatch r rd = true)) :
    rd ∈ filtered table r := by
  rw [filtered_eq_filter_matchesAll]
  refine List.mem_filter.mpr ⟨hmem, ?_⟩
  unfold matchesAll
  rcases hb with ⟨hs, hend⟩ | ⟨hen, hstart⟩
  · have hstart : startMatch r rd = true := by
      unfold startMatch
      rw [hs]
      simp
    simp [hloc, hsen, hstart, hend]
  · have hend : endMatch r rd = true := by
      unfold endMatch
      rw [hen]
      simp
    simp [hloc, hsen, hstart, hend]

/-- C4 witness: the reading at exactly 2024-01-01T00:00:00Z is included
when `start_date` is that very instant. -/
theorem c4_window_inclusive_witness :
    mkReading 1704067200 "Plant" "temp" 10 ∈
      filtered exTable
        { location := none, sensor := some "temp",
          start_date := some "2024-01-01T00:00:00Z",
          end_date := some "2024-02-01" } :=
  c4_window_inclusive exTable
    { location := none, sensor := some "temp",
      start_date := some "2024-01-01T00:00:00Z",
      end_date := some "2024-02-01" }
    (mkReading 1704067200 "Plant" "temp" 10)
    (by decide) (by decide) (by decide)
    (Or.inl ⟨by decide, by decide⟩)

/-- The query with only a date-only end bound of 2024-01-31. -/
def endJanReq : Request :=
  { location := none, sensor := none,
    start_date := none, end_date := some "2024-01-31" }

/-- The query with only a date-only start bound of 2024-01-01. -/
def startJanReq : Request :=
  { location := none, sensor := none,
    start_date := some "2024-01-01", end_date := none }

/-- C5 amended: a date-only bound parses to midnight — the START of
that UTC day — for `start_date` and `end_date` alike; with
`end_date=2024-01-31` exactly the readings with timestamp at or before
2024-01-31T00:00:00Z are kept, and with `start_date=2024-01-01` exactly
those at or after 2024-01-01T00:00:00Z. -/
theorem c5_date_only_is_midnight (table : List Reading) (rd : Reading)
    (hmem : rd ∈ table) :
    parse_iso "2024-01-31" = some 1706659200 ∧
    parse_iso "2024-01-01" = some 1704067200 ∧
    (rd ∈ filtered table endJanReq ↔ rd.timestamp ≤ 1706659200) ∧
    (rd ∈ filtered table startJanReq ↔ 1704067200 ≤ rd.timestamp) := by
  have he : parse_iso "2024-01-31" = some 1706659200 := by decide
  have hs : parse_iso "2024-01-01" = some 1704067200 := by decide
  refine ⟨he, hs, ?_, ?_⟩
  · simp [filtered, startBound, endBound, endJanReq, he, List.mem_filter, hmem]
  · simp [filtered, startBound, endBound, startJanReq, hs, List.mem_filter, hmem]

/-- C5 amended witness: the reading at 2024-01-31T00:00:00Z itself is
kept under `end_date=2024-01-31`. -/
theorem c5_date_only_is_midnight_witness :
    mkReading 1706659200 "Plant" "temp" 5 ∈
      filtered [mkReading 1706659200 "Plant" "temp" 5] endJanReq :=
  ((c5_date_only_is_midnight [mkReading 1706659200 "Plant" "temp" 5]
    (mkReading 1706659200 "Plant" "temp" 5) (by decide)).2.2.1).mpr (by decide)

/-- A source table lacking the required `value` column. -/
def noValueTable : RawTable :=
  { columns := ["timestamp", "location", "sensor"],
    rows := [["2024-01-01", "Plant", "temp"]] }

/-- C6: if a required column is missing, `load_data` returns a schema
error — it never returns a table, so no query can be served. -/
theorem c6_missing_column_fatal (t : RawTable) (c : String)
    (hreq : c ∈ ["timestamp", "location", "sensor", "value"])
    (habs : c ∉ t.columns) :
    (∃ msg, load_data t = Except.error msg) ∧
    ∀ rs, load_data t ≠ Except.ok rs := by
  have hc : c ∈ missingColumns t := by
    refine List.mem_filter.mpr ⟨hreq, ?_⟩
    simp [habs]
  have hne : (missingColumns t).isEmpty = false := by
    cases hI : (missingColumns t).isEmpty
    · rfl
    · rw [List.isEmpty_iff.mp hI] at hc
      simp at hc
  have herr : load_data t = Except.error
      ("CSV missing columns: " ++ String.intercalate ", " (missingColumns t)) := by
    unfold load_data
    rw [hne]
    simp
  exact ⟨⟨_, herr⟩, fun rs h => by rw [herr] at h; simp at h⟩

/-- C6 witness: a source lacking the `value` column fails to load. -/
theorem c6_missing_column_fatal_witness :
    ∃ msg, load_data noValueTable = Except.error msg :=
  (c6_missing_column_fatal noValueTable "value" (by decide) (by decide)).1

/-- A source row survives load exactly when its timestamp and value
cells parse. -/
def rowValid (cols : List String) (row : List String) : Bool :=
  ((getCell cols row "timestamp").bind parse_iso).isSome &&
  ((getCell cols row "value").bind parse_numeric).isSome

/-- Normalization `rowToReading` succeeds exactly on valid rows. -/
theorem rowToReading_isSome (cols : List String) (row : List String) :
    (rowToReading cols row).isSome = rowValid cols row := by
  unfold rowToReading rowValid
  cases h1 : getCell cols row "timestamp" with
  | none => simp [h1]
  | some tsStr =>
    cases h2 : parse_iso tsStr with
    | none => simp [h1, h2]
    | some ts =>
      cases h3 : getCell cols row "value" with
      | none => simp [h1, h2, h3]
      | some valStr =>
        cases h4 : parse_numeric valStr with
        | none => simp [h1, h2, h3, h4]
        | some v => simp [h1, h2, h3, h4]

/-- A successfully normalized row carries the parsed timestamp and
value of its source cells. -/
theorem rowToReading_parses (cols row : List String) (rd : Reading)
    (h : rowToReading cols row = some rd) :
    (getCell cols row "timestamp").bind parse_iso = some rd.timestamp ∧
    (getCell cols row "value").bind parse_numeric = some rd.value := by
  unfold rowToReading at h
  cases h1 : getCell cols row "timestamp" with
  | none => rw [h1] at h; simp at h
  | some tsStr =>
    rw [h1] at h
    cases h2 : parse_iso tsStr with
    | none => simp [h2] at h
    | some ts =>
      cases h3 : getCell cols row "value" with
      | none => simp [h2, h3] at h
      | some valStr =>
        cases h4 : parse_numeric valStr with
        | none => simp [h2, h3, h4] at h
        | some v =>
          simp [h2, h3, h4] at h
          subst h
          simp [h2, h3, h4]

/-- A `filterMap` keeps as many elements as the `isSome` filter. -/
theorem length_filterMap_eq_length_filter (f : α → Option β) (l : List α) :
    (l.filterMap f).length = (l.filter (fun a => (f a).isSome)).length := by
  induction l with
  | nil => rfl
  | cons a t ih => cases h : f a <;> simp [List.filterMap_cons, List.filter_cons, h, ih]

/-- Kept and dropped elements of a filter partition the list. -/
theorem length_filter_add_length_filter_not (p : α → Bool) (l : List α) :
    (l.filter p).length + (l.filter (fun a => !(p a))).length = l.length := by
  induction l with
  | nil => rfl
  | cons a t ih =>
    cases h : p a <;> simp [List.filter_cons, h] <;> omega

/-- C7: after a successful load, the table holds exactly the source
rows whose timestamp and value parse — its reading count is total rows
minus excluded rows — and every surviving reading carries a parsed UTC
timestamp and numeric value taken from some source row; excluded rows
contribute to no reading. -/
theorem c7_load_row_exclusion (t : RawTable) (rs : List Reading)
    (h : load_data t = Except.ok rs) :
    rs.length = (t.rows.filter (fun row => rowValid t.columns row)).length ∧
    rs.length + (t.rows.filter (fun row => !(rowValid t.columns row))).length
      = t.rows.length ∧
    ∀ rd ∈ rs, ∃ row, row ∈ t.rows ∧
      (getCell t.columns row "timestamp").bind parse_iso = some rd.timestamp ∧
      (getCell t.columns row "value").bind parse_numeric = some rd.value := by
  have hrs : rs = t.rows.filterMap (rowToReading t.columns) := by
    unfold load_data at h
    cases hE : (missingColumns t).isEmpty
    · rw [hE] at h; simp at h
    · rw [hE] at h
      simp only [if_pos, Except.ok.injEq] at h
      exact h.symm
  have hP : (fun row => (rowToReading t.columns row).isSome)
      = (fun row => rowValid t.columns row) :=
    funext fun row => rowToReading_isSome t.columns row
  subst hrs
  refine ⟨?_, ?_, ?_⟩
  · rw [length_filterMap_eq_length_filter, hP]
  · rw [length_filterMap_eq_length_filter, hP]
    exact length_filter_add_length_filter_not _ _
  · intro rd hrd
    obtain ⟨row, hrow, heq⟩ := List.mem_filterMap.mp hrd
    exact ⟨row, hrow, rowToReading_parses _ _ _ heq⟩

/-- A source with one parseable row and one row whose timestamp and
value are both garbage. -/
def mixedTable : RawTable :=
  { columns := ["timestamp", "location", "sensor", "value"],
    rows := [["2024-01-01T00:00:00Z", "Plant", "temp", "10"],
             ["bad-timestamp", "Plant", "temp", "x"]] }

/-- C7 witness: on `mixedTable` the loaded count equals the valid-row
count, which is 1 of the 2 source rows. -/
theorem c7_load_row_exclusion_witness :
    (mixedTable.rows.filterMap (rowToReading mixedTable.columns)).length
      = (mixedTable.rows.filter
          (fun row => rowValid mixedTable.columns row)).length ∧
    (mixedTable.rows.filter
      (fun row => rowValid mixedTable.columns row)).length = 1 ∧
    mixedTable.rows.length = 2 :=
  ⟨(c7_load_row_exclusion mixedTable
      (mixedTable.rows.filterMap (rowToReading mixedTable.columns)) rfl).1,
   by decide, by decide⟩

/-- C8: an unparseable `start_date` or `end_date` is treated as no
constraint — the stats are those of the same query with that bound
absent, so the request is served from the remaining criteria. -/
theorem c8_unparseable_bound_ignored (table : List Reading) (r : Request) :
    (∀ s, r.start_date = some s → parse_iso s = none →
      compute_stats table r =
        compute_stats table { r with start_date := none }) ∧
    (∀ s, r.end_date = some s → parse_iso s = none →
      compute_stats table r =
        compute_stats table { r with end_date := none }) := by
  obtain ⟨lo, se, sd, ed⟩ := r
  constructor
  · intro s hs hp
    cases hs
    have h1 : startBound ⟨lo, se, some s, ed⟩ = none := by
      simp [startBound, hp]
    have h2 : startBound ⟨lo, se, none, ed⟩ = none := rfl
    have hf : filtered table ⟨lo, se, some s, ed⟩ =
        filtered table ⟨lo, se, none, ed⟩ := by
      unfold filtered
      rw [h1, h2]
      rfl
    simp [compute_stats, hf]
  · intro s hs hp
    cases hs
    have h1 : endBound ⟨lo, se, sd, some s⟩ = none := by
      simp [endBound, hp]
    have h2 : endBound ⟨lo, se, sd, none⟩ = none := rfl
    have hf : filtered table ⟨lo, se, sd, some s⟩ =
        filtered table ⟨lo, se, sd, none⟩ := by
      unfold filtered
      rw [h1, h2]
      rfl
    simp [compute_stats, hf]

/-- The example query with a garbage start date. -/
def badDateReq : Request :=
  { location := none, sensor := some "temp",
    start_date := some "not-a-date", end_date := none }

/-- C8 witness: a garbage `start_date` yields the stats of the same
query without a start bound. -/
theorem c8_unparseable_bound_ignored_witness :
    compute_stats wsTable badDateReq =
      compute_stats wsTable { badDateReq with start_date := none } :=
  (c8_unparseable_bound_ignored wsTable badDateReq).1 "not-a-date" rfl (by decide)
